import Mathlib

/-!
Shallow embedding of the clean-architecture todo service:
domain entity (`domain/entities.py`), DTOs (`application/dtos.py`),
use cases (`application/use_cases.py`) and the two repository backends
(`infrastructure/database/repositories.py`).

Python exceptions are modelled by `PyErr`; fallible operations return
`Except PyErr`.  The fresh uuid4 id generated by the entity constructor is
passed in as an explicit parameter.  Repository state is explicit:
`PyStore` for the in-memory backend (whose backing field is initialised
with a list literal despite its mapping annotation, so both runtime shapes
are modelled) and a list of table rows for the relational backend.
-/

/-- Python exception values raised in the source: every failure is a
`ValueError`, `TypeError` or `AttributeError` carrying a message. -/
inductive PyErr where
  | valueError (msg : String)
  | typeError (msg : String)
  | attributeError (msg : String)
deriving DecidableEq, Repr

/-- `domain/entities.py`: the `TodoItem` entity, fields in source order. -/
structure TodoItem where
  title : String
  completed : Bool
  id : String
deriving DecidableEq, Repr

/-- `TodoItem(title=...)` with defaulted fields: `completed=False` and a
freshly generated id (the uuid4 string is the explicit `fresh_id`). -/
def TodoItem.create (title : String) (fresh_id : String) : TodoItem :=
  { title := title, completed := false, id := fresh_id }

/-- `TodoItem.mark_as_completed`: raises `ValueError` when already
completed, otherwise returns a new item with `completed=True` and the
same `id`/`title`. -/
def TodoItem.mark_as_completed (self : TodoItem) : Except PyErr TodoItem :=
  if self.completed then
    Except.error (PyErr.valueError ("タスクは既に完了しています。"))
  else
    Except.ok { id := self.id, title := self.title, completed := true }

/-- `application/dtos.py`: `CreateTodoDTO`. -/
structure CreateTodoDTO where
  title : String
deriving DecidableEq, Repr

/-- `application/dtos.py`: `TodoDTO`. -/
structure TodoDTO where
  id : String
  title : String
  completed : Bool
deriving DecidableEq, Repr

/-- `TodoDTO.from_orm`: reads `id`/`title`/`completed` off the entity. -/
def TodoDTO.from_orm (t : TodoItem) : TodoDTO :=
  { id := t.id, title := t.title, completed := t.completed }

/-- Runtime value of `InMemoryTodoRepository._todos`.  The source
annotates the field as `dict[str, TodoItem]` but initialises it with the
list literal `[]`, so the value may be a Python list or a Python dict
(modelled as an ordered association list). -/
inductive PyStore where
  | pylist (items : List TodoItem)
  | pydict (entries : List (String × TodoItem))
deriving DecidableEq, Repr

/-- `InMemoryTodoRepository.__init__`: `self._todos = []`, a list. -/
def InMemoryTodoRepository.init : PyStore := PyStore.pylist []

/-- Python dict assignment `d[key] = v`: replaces the value at an existing
key in place (keeping insertion order), otherwise appends the new pair. -/
def dictAssign (entries : List (String × TodoItem)) (key : String) (v : TodoItem) :
    List (String × TodoItem) :=
  if entries.any (fun e => e.1 == key) then
    entries.map (fun e => if e.1 == key then (key, v) else e)
  else
    entries ++ [(key, v)]

/-- `InMemoryTodoRepository.save`: `self._todos[todo.id] = todo`.  On the
list value this keyed assignment with a string raises `TypeError`; on a
dict it stores the item under its id and returns the item. -/
def InMemoryTodoRepository.save (todo : TodoItem) :
    PyStore → Except PyErr (TodoItem × PyStore)
  | PyStore.pylist _ =>
      Except.error (PyErr.typeError ("list indices must be integers or slices, not str"))
  | PyStore.pydict es =>
      Except.ok (todo, PyStore.pydict (dictAssign es todo.id todo))

/-- `InMemoryTodoRepository.find_by_id`: `self._todos.get(id)`.  A list
has no `get` attribute, so the list value raises `AttributeError`. -/
def InMemoryTodoRepository.find_by_id (i : String) :
    PyStore → Except PyErr (Option TodoItem)
  | PyStore.pylist _ =>
      Except.error (PyErr.attributeError ("list object has no attribute get"))
  | PyStore.pydict es =>
      Except.ok ((es.find? (fun e => e.1 == i)).map Prod.snd)

/-- `InMemoryTodoRepository.find_all`: `list(self._todos.values())`.  A
list has no `values` attribute, so the list value raises `AttributeError`. -/
def InMemoryTodoRepository.find_all :
    PyStore → Except PyErr (List TodoItem)
  | PyStore.pylist _ =>
      Except.error (PyErr.attributeError ("list object has no attribute values"))
  | PyStore.pydict es => Except.ok (es.map Prod.snd)

/-- `infrastructure/database/models.py`: one row of the `todos` table. -/
structure TodoItemModel where
  id : String
  title : String
  completed : Bool
deriving DecidableEq, Repr

/-- Mutation of the row object returned by
`query(...).filter(TodoItemModel.id == i).first()`: the first row whose id
matches gets its `title` and `completed` columns overwritten; all other
rows are untouched. -/
def updateFirstRow (i t : String) (c : Bool) :
    List TodoItemModel → List TodoItemModel
  | [] => []
  | m :: ms =>
      if m.id == i then { m with title := t, completed := c } :: ms
      else m :: updateFirstRow i t c ms

/-- `SqlAlchemyTodoItemRepository.save`: query the first row with the
item's id; if absent insert a new row, else update its `title` and
`completed` in place; return the item passed in. -/
def SqlAlchemyTodoItemRepository.save (todo : TodoItem) (rows : List TodoItemModel) :
    TodoItem × List TodoItemModel :=
  match rows.find? (fun m => m.id == todo.id) with
  | none =>
      (todo, rows ++ [{ id := todo.id, title := todo.title, completed := todo.completed }])
  | some _ => (todo, updateFirstRow todo.id todo.title todo.completed rows)

/-- `SqlAlchemyTodoItemRepository.find_by_id`: first row with the id,
mapped back into an entity, or `None`. -/
def SqlAlchemyTodoItemRepository.find_by_id (todo_id : String)
    (rows : List TodoItemModel) : Option TodoItem :=
  match rows.find? (fun m => m.id == todo_id) with
  | some m => some { id := m.id, title := m.title, completed := m.completed }
  | none => none

/-- `SqlAlchemyTodoItemRepository.find_all`: every row mapped into an
entity. -/
def SqlAlchemyTodoItemRepository.find_all (rows : List TodoItemModel) : List TodoItem :=
  rows.map (fun m => { id := m.id, title := m.title, completed := m.completed })

/-- The repository capability contract (`application/repositories.py`),
over an explicit state type: `save` may change the state, the two queries
do not.  Each operation may raise. -/
structure RepoOps (σ : Type) where
  save : TodoItem → σ → Except PyErr (TodoItem × σ)
  find_by_id : String → σ → Except PyErr (Option TodoItem)
  find_all : σ → Except PyErr (List TodoItem)

/-- The in-memory backend packaged as repository operations. -/
def inMemoryRepo : RepoOps PyStore :=
  { save := InMemoryTodoRepository.save
    find_by_id := InMemoryTodoRepository.find_by_id
    find_all := InMemoryTodoRepository.find_all }

/-- The relational backend packaged as repository operations (its three
operations do not raise in this model). -/
def sqlRepo : RepoOps (List TodoItemModel) :=
  { save := fun t rows => Except.ok (SqlAlchemyTodoItemRepository.save t rows)
    find_by_id := fun i rows => Except.ok (SqlAlchemyTodoItemRepository.find_by_id i rows)
    find_all := fun rows => Except.ok (SqlAlchemyTodoItemRepository.find_all rows) }

/-- `TodoUseCases.create_todo`: build the entity with a fresh id, persist
it via `repo.save`, return the persisted result as a DTO.  An uncaught
exception leaves the state as it was. -/
def TodoUseCases.create_todo {σ : Type} (repo : RepoOps σ) (dto : CreateTodoDTO)
    (fresh_id : String) (s : σ) : Except PyErr TodoDTO × σ :=
  match repo.save (TodoItem.create dto.title fresh_id) s with
  | Except.error e => (Except.error e, s)
  | Except.ok (created_todo, s2) => (Except.ok (TodoDTO.from_orm created_todo), s2)

/-- `TodoUseCases.get_all_todos`: delegate to `repo.find_all`, map each
entity to a DTO. -/
def TodoUseCases.get_all_todos {σ : Type} (repo : RepoOps σ) (s : σ) :
    Except PyErr (List TodoDTO) × σ :=
  match repo.find_all s with
  | Except.error e => (Except.error e, s)
  | Except.ok todos => (Except.ok (todos.map TodoDTO.from_orm), s)

/-- `TodoUseCases.complete_todo`: look up by id, raise
`ValueError("Todo not found")` when absent, otherwise mark completed
(propagating its `ValueError` when already completed), persist via
`repo.save` and return the DTO. -/
def TodoUseCases.complete_todo {σ : Type} (repo : RepoOps σ) (todo_id : String)
    (s : σ) : Except PyErr TodoDTO × σ :=
  match repo.find_by_id todo_id s with
  | Except.error e => (Except.error e, s)
  | Except.ok none => (Except.error (PyErr.valueError ("Todo not found")), s)
  | Except.ok (some todo) =>
      match todo.mark_as_completed with
      | Except.error e => (Except.error e, s)
      | Except.ok completed_todo_entity =>
          match repo.save completed_todo_entity s with
          | Except.error e => (Except.error e, s)
          | Except.ok (updated_todo, s2) =>
              (Except.ok (TodoDTO.from_orm updated_todo), s2)

/-- One use-case invocation, for stating state invariants. -/
inductive UseCaseOp where
  | create (dto : CreateTodoDTO) (fresh_id : String)
  | getAll
  | complete (todo_id : String)

/-- The repository state after running one use-case invocation. -/
def runUseCaseOp {σ : Type} (repo : RepoOps σ) : UseCaseOp → σ → σ
  | UseCaseOp.create dto fresh_id, s => (TodoUseCases.create_todo repo dto fresh_id s).2
  | UseCaseOp.getAll, s => (TodoUseCases.get_all_todos repo s).2
  | UseCaseOp.complete todo_id, s => (TodoUseCases.complete_todo repo todo_id s).2

/-- Ids stored in the in-memory backend (keys of the dict value; a list
value stores items positionally, their ids are listed). -/
def PyStore.storedIds : PyStore → List String
  | PyStore.pylist items => items.map TodoItem.id
  | PyStore.pydict entries => entries.map Prod.fst

/-! ## Helper lemmas -/

theorem find?_append_of_none {α : Type} (p : α → Bool) (l1 l2 : List α)
    (h : l1.find? p = none) : (l1 ++ l2).find? p = l2.find? p := by
  induction l1 with
  | nil => simp
  | cons a as ih =>
    rw [List.find?_cons] at h
    cases hp : p a with
    | true => simp [hp] at h
    | false =>
      simp only [hp] at h
      simp [List.find?_cons, hp, ih h]

theorem find?_append_cons_of_first {α : Type} (p : α → Bool) (pre post : List α)
    (m : α) (hpre : ∀ a ∈ pre, p a = false) (hm : p m = true) :
    (pre ++ m :: post).find? p = some m := by
  induction pre with
  | nil => simp [List.find?_cons, hm]
  | cons a as ih =>
    have ha : p a = false := hpre a (List.mem_cons_self a as)
    simp only [List.cons_append, List.find?_cons, ha]
    exact ih (fun b hb => hpre b (List.mem_cons_of_mem a hb))

theorem find?_updateFirstRow (i t : String) (c : Bool) (rows : List TodoItemModel)
    (m : TodoItemModel) (h : rows.find? (fun m2 => m2.id == i) = some m) :
    (updateFirstRow i t c rows).find? (fun m2 => m2.id == i) =
      some { m with title := t, completed := c } := by
  induction rows with
  | nil => simp at h
  | cons a as ih =>
    cases ha : (a.id == i) with
    | true =>
      rw [List.find?_cons] at h
      simp only [ha] at h
      cases h
      simp [updateFirstRow, ha, List.find?_cons]
    | false =>
      rw [List.find?_cons] at h
      simp only [ha] at h
      simp [updateFirstRow, ha, List.find?_cons, ih h]

theorem updateFirstRow_map_id (i t : String) (c : Bool) (rows : List TodoItemModel) :
    (updateFirstRow i t c rows).map TodoItemModel.id = rows.map TodoItemModel.id := by
  induction rows with
  | nil => rfl
  | cons a as ih =>
    cases ha : (a.id == i) with
    | true => simp [updateFirstRow, ha]
    | false => simp [updateFirstRow, ha, ih]

theorem updateFirstRow_append_cons (i t : String) (c : Bool)
    (pre post : List TodoItemModel) (m : TodoItemModel)
    (hpre : ∀ a ∈ pre, (a.id == i) = false) (hm : (m.id == i) = true) :
    updateFirstRow i t c (pre ++ m :: post) =
      pre ++ { m with title := t, completed := c } :: post := by
  induction pre with
  | nil => simp [updateFirstRow, hm]
  | cons a as ih =>
    have ha : (a.id == i) = false := hpre a (List.mem_cons_self a as)
    simp only [List.cons_append, updateFirstRow, ha, Bool.false_eq_true, if_false,
      List.cons.injEq, true_and]
    exact ih (fun b hb => hpre b (List.mem_cons_of_mem a hb))

theorem sql_save_fst (todo : TodoItem) (rows : List TodoItemModel) :
    (SqlAlchemyTodoItemRepository.save todo rows).1 = todo := by
  unfold SqlAlchemyTodoItemRepository.save
  cases rows.find? (fun m => m.id == todo.id) <;> rfl

theorem sql_save_find (x : TodoItem) (rows : List TodoItemModel) :
    SqlAlchemyTodoItemRepository.find_by_id x.id
      (SqlAlchemyTodoItemRepository.save x rows).2 = some x := by
  unfold SqlAlchemyTodoItemRepository.save SqlAlchemyTodoItemRepository.find_by_id
  cases hf : rows.find? (fun m => m.id == x.id) with
  | none =>
    rw [find?_append_of_none _ _ _ hf]
    simp [List.find?_cons]
  | some m =>
    have hmid : m.id = x.id := by
      have h2 := List.find?_some hf
      simpa using h2
    rw [find?_updateFirstRow _ _ _ _ _ hf]
    simp [hmid]

theorem sql_find_by_id_some_id (i : String) (rows : List TodoItemModel)
    (item : TodoItem) (h : SqlAlchemyTodoItemRepository.find_by_id i rows = some item) :
    item.id = i := by
  unfold SqlAlchemyTodoItemRepository.find_by_id at h
  cases hf : rows.find? (fun m => m.id == i) with
  | none => rw [hf] at h; cases h
  | some m =>
    rw [hf] at h
    cases h
    have h2 := List.find?_some hf
    simpa using h2

theorem sql_save_ids_superset (x : TodoItem) (rows : List TodoItemModel)
    (i : String) (h : i ∈ rows.map TodoItemModel.id) :
    i ∈ ((SqlAlchemyTodoItemRepository.save x rows).2).map TodoItemModel.id := by
  unfold SqlAlchemyTodoItemRepository.save
  cases rows.find? (fun m => m.id == x.id) with
  | none => simpa using Or.inl h
  | some m => simpa [updateFirstRow_map_id] using h

theorem mem_keys_dictAssign (es : List (String × TodoItem)) (k : String)
    (v : TodoItem) (i : String) (h : i ∈ es.map Prod.fst) :
    i ∈ (dictAssign es k v).map Prod.fst := by
  unfold dictAssign
  by_cases ha : es.any (fun e => e.1 == k) = true
  · simp only [ha, if_true]
    rcases List.mem_map.mp h with ⟨e, he, hfst⟩
    apply List.mem_map.mpr
    refine ⟨if e.1 == k then (k, v) else e, List.mem_map.mpr ⟨e, he, rfl⟩, ?_⟩
    cases hek : (e.1 == k) with
    | true =>
      simp only [hek, if_true]
      rw [← hfst]
      exact (beq_iff_eq.mp hek).symm
    | false => simp only [hek, Bool.false_eq_true, if_false]; exact hfst
  · simp only [ha, Bool.false_eq_true, if_false, List.map_append]
    exact List.mem_append_left _ h

/-! ## Claim theorems -/

/-- C6: the in-memory repository's constructor initialises its backing
store with the list literal `[]` where a key-to-value mapping is expected,
so for every item, `save` on a freshly constructed repository fails with
the `TypeError` of the keyed string assignment instead of persisting it. -/
theorem inmemory_init_is_list_and_save_fails :
    InMemoryTodoRepository.init = PyStore.pylist []
  ∧ ∀ x : TodoItem, InMemoryTodoRepository.save x InMemoryTodoRepository.init =
      Except.error (PyErr.typeError ("list indices must be integers or slices, not str")) :=
  ⟨rfl, fun _ => rfl⟩

/-- C5: the save-then-find round-trip holds for the relational backend on
every state, but on the in-memory backend `save` on a freshly constructed
repository raises `TypeError` (the backing store is a list, not the
annotated mapping), so the claimed round-trip fails there: `save(x)` never
persists `x`. -/
theorem sql_roundtrip_inmemory_save_raises :
    (∀ (x : TodoItem) (rows : List TodoItemModel),
        SqlAlchemyTodoItemRepository.find_by_id x.id
          (SqlAlchemyTodoItemRepository.save x rows).2 = some x)
  ∧ ∀ x : TodoItem, InMemoryTodoRepository.save x InMemoryTodoRepository.init =
      Except.error (PyErr.typeError ("list indices must be integers or slices, not str")) :=
  ⟨sql_save_find, fun _ => rfl⟩

/-- C8: `mark_as_completed` on a not-yet-completed item returns a new
`TodoItem` value with `completed = true` and the same `id` and `title`;
the returned value is distinct from the receiver, which the pure function
leaves unchanged. -/
theorem mark_as_completed_copy_on_write (t : TodoItem) (h : t.completed = false) :
    t.mark_as_completed = Except.ok { title := t.title, completed := true, id := t.id }
  ∧ ({ title := t.title, completed := true, id := t.id } : TodoItem) ≠ t := by
  constructor
  · simp [TodoItem.mark_as_completed, h]
  · intro heq
    have hc := congrArg TodoItem.completed heq
    rw [h] at hc
    cases hc

/-- C8 witness at a concrete item. -/
theorem mark_as_completed_copy_on_write_witness :
    ({ title := ("Buy milk"), completed := false, id := ("U1") } : TodoItem).mark_as_completed =
      Except.ok { title := ("Buy milk"), completed := true, id := ("U1") }
  ∧ ({ title := ("Buy milk"), completed := true, id := ("U1") } : TodoItem) ≠
      { title := ("Buy milk"), completed := false, id := ("U1") } :=
  mark_as_completed_copy_on_write
    { title := ("Buy milk"), completed := false, id := ("U1") } rfl

/-- C10: `create_todo` performs no title validation: for every title
string, the empty string included, it succeeds on the relational backend,
returns a DTO carrying exactly that title, and persists an item carrying
exactly that title. -/
theorem create_todo_accepts_any_title (title fresh_id : String)
    (rows : List TodoItemModel) :
    (TodoUseCases.create_todo sqlRepo { title := title } fresh_id rows).1 =
      Except.ok { id := fresh_id, title := title, completed := false }
  ∧ SqlAlchemyTodoItemRepository.find_by_id fresh_id
      (TodoUseCases.create_todo sqlRepo { title := title } fresh_id rows).2 =
      some (TodoItem.create title fresh_id) := by
  have hsave := sql_save_fst { title := title, completed := false, id := fresh_id } rows
  have hfind := sql_save_find { title := title, completed := false, id := fresh_id } rows
  constructor
  · simp [TodoUseCases.create_todo, sqlRepo, TodoDTO.from_orm, hsave, TodoItem.create]
  · simpa [TodoUseCases.create_todo, sqlRepo, TodoItem.create] using hfind

/-- C4: completing an already-completed item fails with the
domain-rule-violation `ValueError` and leaves the repository state exactly
as it was: no save occurs and no stored row changes. -/
theorem complete_todo_already_completed_state_unchanged (todo_id : String)
    (rows : List TodoItemModel) (item : TodoItem)
    (hfind : SqlAlchemyTodoItemRepository.find_by_id todo_id rows = some item)
    (hc : item.completed = true) :
    TodoUseCases.complete_todo sqlRepo todo_id rows =
      (Except.error (PyErr.valueError ("タスクは既に完了しています。")), rows) := by
  simp [TodoUseCases.complete_todo, sqlRepo, hfind, TodoItem.mark_as_completed, hc]

/-- C4 witness at a concrete already-completed item. -/
theorem complete_todo_already_completed_state_unchanged_witness :
    TodoUseCases.complete_todo sqlRepo ("U1")
        [{ id := ("U1"), title := ("Buy milk"), completed := true }] =
      (Except.error (PyErr.valueError ("タスクは既に完了しています。")),
       [{ id := ("U1"), title := ("Buy milk"), completed := true }]) :=
  complete_todo_already_completed_state_unchanged ("U1")
    [{ id := ("U1"), title := ("Buy milk"), completed := true }]
    { title := ("Buy milk"), completed := true, id := ("U1") } (by decide) rfl

/-- C1: on the relational backend, completing a stored not-yet-completed
item returns that item with `completed` flipped to true and the same id
and title, persisting the completed item via `save`: looking the id up
afterwards returns the completed item. -/
theorem complete_todo_flips_and_persists (todo_id : String)
    (rows : List TodoItemModel) (item : TodoItem)
    (hfind : SqlAlchemyTodoItemRepository.find_by_id todo_id rows = some item)
    (hnc : item.completed = false) :
    TodoUseCases.complete_todo sqlRepo todo_id rows =
      (Except.ok { id := item.id, title := item.title, completed := true },
       (SqlAlchemyTodoItemRepository.save
          { title := item.title, completed := true, id := item.id } rows).2)
  ∧ SqlAlchemyTodoItemRepository.find_by_id todo_id
      (TodoUseCases.complete_todo sqlRepo todo_id rows).2 =
      some { title := item.title, completed := true, id := item.id } := by
  have hid : item.id = todo_id := sql_find_by_id_some_id todo_id rows item hfind
  have hfind2 := sql_save_find { title := item.title, completed := true, id := item.id } rows
  have h2 : (TodoUseCases.complete_todo sqlRepo todo_id rows).2 =
      (SqlAlchemyTodoItemRepository.save
        { title := item.title, completed := true, id := item.id } rows).2 := by
    simp [TodoUseCases.complete_todo, sqlRepo, hfind, TodoItem.mark_as_completed, hnc]
  constructor
  · simp [TodoUseCases.complete_todo, sqlRepo, hfind, TodoItem.mark_as_completed, hnc,
      TodoDTO.from_orm, sql_save_fst]
  · rw [h2, ← hid]
    exact hfind2

/-- C1 witness at a concrete not-yet-completed item. -/
theorem complete_todo_flips_and_persists_witness :
    TodoUseCases.complete_todo sqlRepo ("U1")
        [{ id := ("U1"), title := ("Buy milk"), completed := false }] =
      (Except.ok { id := ("U1"), title := ("Buy milk"), completed := true },
       (SqlAlchemyTodoItemRepository.save
          { title := ("Buy milk"), completed := true, id := ("U1") }
          [{ id := ("U1"), title := ("Buy milk"), completed := false }]).2)
  ∧ SqlAlchemyTodoItemRepository.find_by_id ("U1")
      (TodoUseCases.complete_todo sqlRepo ("U1")
        [{ id := ("U1"), title := ("Buy milk"), completed := false }]).2 =
      some { title := ("Buy milk"), completed := true, id := ("U1") } :=
  complete_todo_flips_and_persists ("U1")
    [{ id := ("U1"), title := ("Buy milk"), completed := false }]
    { title := ("Buy milk"), completed := false, id := ("U1") } (by decide) rfl

/-- C2: on the relational backend, `complete_todo` fails with the
not-found `ValueError` iff no item with the id is stored, fails with the
domain-rule `ValueError` iff the stored item is already completed,
succeeds in every other case, and the two error values are distinct, so
the caller can tell them apart. -/
theorem complete_todo_error_taxonomy (todo_id : String) (rows : List TodoItemModel) :
    ((TodoUseCases.complete_todo sqlRepo todo_id rows).1 =
        Except.error (PyErr.valueError ("Todo not found")) ↔
      SqlAlchemyTodoItemRepository.find_by_id todo_id rows = none)
  ∧ ((TodoUseCases.complete_todo sqlRepo todo_id rows).1 =
        Except.error (PyErr.valueError ("タスクは既に完了しています。")) ↔
      ∃ item, SqlAlchemyTodoItemRepository.find_by_id todo_id rows = some item ∧
        item.completed = true)
  ∧ ((∃ dto, (TodoUseCases.complete_todo sqlRepo todo_id rows).1 = Except.ok dto) ↔
      ∃ item, SqlAlchemyTodoItemRepository.find_by_id todo_id rows = some item ∧
        item.completed = false)
  ∧ (PyErr.valueError ("Todo not found")) ≠
      (PyErr.valueError ("タスクは既に完了しています。")) := by
  cases hfind : SqlAlchemyTodoItemRepository.find_by_id todo_id rows with
  | none =>
    refine ⟨?_, ?_, ?_, by decide⟩ <;>
      simp [TodoUseCases.complete_todo, sqlRepo, hfind]
  | some item =>
    cases hc : item.completed with
    | true =>
      refine ⟨?_, ?_, ?_, by decide⟩ <;>
        simp [TodoUseCases.complete_todo, sqlRepo, hfind, TodoItem.mark_as_completed, hc]
    | false =>
      refine ⟨?_, ?_, ?_, by decide⟩ <;>
        simp [TodoUseCases.complete_todo, sqlRepo, hfind, TodoItem.mark_as_completed, hc]

/-- C3: `create_todo` with a fresh non-empty id (as uuid4 yields) returns
an item with `completed = false`, the given title, and that non-empty
not-yet-stored id, and persists it via `save` before returning: the
returned state is the old rows plus the new row, where the id now finds
the item. -/
theorem create_todo_persists_fresh_item (title fresh_id : String)
    (rows : List TodoItemModel) (hne : fresh_id ≠ "")
    (hfresh : fresh_id ∉ rows.map TodoItemModel.id) :
    TodoUseCases.create_todo sqlRepo { title := title } fresh_id rows =
      (Except.ok { id := fresh_id, title := title, completed := false },
       rows ++ [{ id := fresh_id, title := title, completed := false }])
  ∧ SqlAlchemyTodoItemRepository.find_by_id fresh_id
      (rows ++ [{ id := fresh_id, title := title, completed := false }]) =
      some (TodoItem.create title fresh_id)
  ∧ (TodoItem.create title fresh_id).id ≠ ""
  ∧ (TodoItem.create title fresh_id).id ∉ rows.map TodoItemModel.id := by
  have hnone : rows.find? (fun m => m.id == fresh_id) = none := by
    rw [List.find?_eq_none]
    intro m hm hbeq
    exact hfresh (List.mem_map.mpr ⟨m, hm, beq_iff_eq.mp hbeq⟩)
  have hsave : SqlAlchemyTodoItemRepository.save (TodoItem.create title fresh_id) rows =
      (TodoItem.create title fresh_id,
       rows ++ [{ id := fresh_id, title := title, completed := false }]) := by
    simp only [SqlAlchemyTodoItemRepository.save, TodoItem.create]
    rw [hnone]
  refine ⟨?_, ?_, hne, hfresh⟩
  · simp only [TodoUseCases.create_todo, sqlRepo]
    rw [hsave]
    simp [TodoDTO.from_orm, TodoItem.create]
  · unfold SqlAlchemyTodoItemRepository.find_by_id
    rw [find?_append_of_none _ _ _ hnone]
    simp [List.find?_cons, TodoItem.create]

/-- C3 witness at a concrete title, fresh id and empty table. -/
theorem create_todo_persists_fresh_item_witness :
    TodoUseCases.create_todo sqlRepo { title := ("Buy milk") } ("U1") [] =
      (Except.ok { id := ("U1"), title := ("Buy milk"), completed := false },
       [] ++ [{ id := ("U1"), title := ("Buy milk"), completed := false }])
  ∧ SqlAlchemyTodoItemRepository.find_by_id ("U1")
      ([] ++ [{ id := ("U1"), title := ("Buy milk"), completed := false }]) =
      some (TodoItem.create ("Buy milk") ("U1"))
  ∧ (TodoItem.create ("Buy milk") ("U1")).id ≠ ""
  ∧ (TodoItem.create ("Buy milk") ("U1")).id ∉ ([] : List TodoItemModel).map TodoItemModel.id :=
  create_todo_persists_fresh_item ("Buy milk") ("U1") [] (by decide) (by simp)

/-- C7: relational `save` is an upsert keyed by id: it always returns the
item passed in; when no row with the item's id exists, the new row
`(id, title, completed)` is inserted; when one exists, that first matching
row gets its `title` and `completed` columns overwritten in place with the
item's values while its `id` column and every other row stay unchanged. -/
theorem sql_save_is_upsert (todo : TodoItem) (rows : List TodoItemModel) :
    (SqlAlchemyTodoItemRepository.save todo rows).1 = todo
  ∧ (rows.find? (fun m => m.id == todo.id) = none →
      (SqlAlchemyTodoItemRepository.save todo rows).2 =
        rows ++ [{ id := todo.id, title := todo.title, completed := todo.completed }])
  ∧ (∀ pre m post, rows = pre ++ m :: post →
      (∀ a ∈ pre, (a.id == todo.id) = false) → (m.id == todo.id) = true →
      (SqlAlchemyTodoItemRepository.save todo rows).2 =
        pre ++ { m with title := todo.title, completed := todo.completed } :: post) := by
  refine ⟨sql_save_fst todo rows, ?_, ?_⟩
  · intro hnone
    simp only [SqlAlchemyTodoItemRepository.save]
    rw [hnone]
  · intro pre m post hrows hpre hm
    have hfind : rows.find? (fun m2 => m2.id == todo.id) = some m := by
      rw [hrows]
      exact find?_append_cons_of_first _ pre post m hpre hm
    simp only [SqlAlchemyTodoItemRepository.save]
    rw [hfind]
    simp only []
    rw [hrows]
    exact updateFirstRow_append_cons todo.id todo.title todo.completed pre post m hpre hm

/-- C7 witness: updating an existing row in a two-row table. -/
theorem sql_save_is_upsert_witness :
    (SqlAlchemyTodoItemRepository.save
        { title := ("New"), completed := true, id := ("U1") }
        [{ id := ("U0"), title := ("A"), completed := false },
         { id := ("U1"), title := ("Old"), completed := false }]).1 =
      { title := ("New"), completed := true, id := ("U1") }
  ∧ (SqlAlchemyTodoItemRepository.save
        { title := ("New"), completed := true, id := ("U1") }
        [{ id := ("U0"), title := ("A"), completed := false },
         { id := ("U1"), title := ("Old"), completed := false }]).2 =
      [{ id := ("U0"), title := ("A"), completed := false },
       { id := ("U1"), title := ("New"), completed := true }] := by
  have h := sql_save_is_upsert { title := ("New"), completed := true, id := ("U1") }
    [{ id := ("U0"), title := ("A"), completed := false },
     { id := ("U1"), title := ("Old"), completed := false }]
  refine ⟨h.1, ?_⟩
  have h3 := h.2.2 [{ id := ("U0"), title := ("A"), completed := false }]
    { id := ("U1"), title := ("Old"), completed := false } [] rfl (by decide) (by decide)
  simpa using h3

/-- C9: no use-case operation deletes a stored item: on the relational
backend every row id present before `create_todo`, `get_all_todos` or
`complete_todo` is still present after it, and likewise for the ids stored
by the in-memory backend, whether the operation succeeds or raises. -/
theorem use_case_ops_never_delete_ids :
    (∀ (op : UseCaseOp) (rows : List TodoItemModel) (i : String),
        i ∈ rows.map TodoItemModel.id →
        i ∈ (runUseCaseOp sqlRepo op rows).map TodoItemModel.id)
  ∧ (∀ (op : UseCaseOp) (st : PyStore) (i : String),
        i ∈ st.storedIds → i ∈ (runUseCaseOp inMemoryRepo op st).storedIds) := by
  constructor
  · intro op rows i h
    cases op with
    | create dto fresh_id =>
      simpa [runUseCaseOp, TodoUseCases.create_todo, sqlRepo] using
        sql_save_ids_superset (TodoItem.create dto.title fresh_id) rows i h
    | getAll =>
      simpa [runUseCaseOp, TodoUseCases.get_all_todos, sqlRepo] using h
    | complete todo_id =>
      cases hfind : SqlAlchemyTodoItemRepository.find_by_id todo_id rows with
      | none =>
        simpa [runUseCaseOp, TodoUseCases.complete_todo, sqlRepo, hfind] using h
      | some item =>
        cases hc : item.completed with
        | true =>
          simpa [runUseCaseOp, TodoUseCases.complete_todo, sqlRepo, hfind,
            TodoItem.mark_as_completed, hc] using h
        | false =>
          have hsup := sql_save_ids_superset
            { title := item.title, completed := true, id := item.id } rows i h
          simpa [runUseCaseOp, TodoUseCases.complete_todo, sqlRepo, hfind,
            TodoItem.mark_as_completed, hc] using hsup
  · intro op st i h
    cases st with
    | pylist items =>
      cases op <;>
        simpa [runUseCaseOp, TodoUseCases.create_todo, TodoUseCases.get_all_todos,
          TodoUseCases.complete_todo, inMemoryRepo, InMemoryTodoRepository.save,
          InMemoryTodoRepository.find_by_id, InMemoryTodoRepository.find_all] using h
    | pydict es =>
      cases op with
      | create dto fresh_id =>
        simpa [runUseCaseOp, TodoUseCases.create_todo, inMemoryRepo,
          InMemoryTodoRepository.save, PyStore.storedIds] using
          mem_keys_dictAssign es (TodoItem.create dto.title fresh_id).id
            (TodoItem.create dto.title fresh_id) i h
      | getAll =>
        simpa [runUseCaseOp, TodoUseCases.get_all_todos, inMemoryRepo,
          InMemoryTodoRepository.find_all] using h
      | complete todo_id =>
        cases hlk : es.find? (fun e => e.1 == todo_id) with
        | none =>
          simpa [runUseCaseOp, TodoUseCases.complete_todo, inMemoryRepo,
            InMemoryTodoRepository.find_by_id, hlk] using h
        | some e =>
          cases hc : e.2.completed with
          | true =>
            simpa [runUseCaseOp, TodoUseCases.complete_todo, inMemoryRepo,
              InMemoryTodoRepository.find_by_id, hlk,
              TodoItem.mark_as_completed, hc] using h
          | false =>
            have hsup := mem_keys_dictAssign es e.2.id
              { title := e.2.title, completed := true, id := e.2.id } i h
            simpa [runUseCaseOp, TodoUseCases.complete_todo, inMemoryRepo,
              InMemoryTodoRepository.find_by_id, InMemoryTodoRepository.save,
              TodoItem.mark_as_completed, hlk, hc, PyStore.storedIds] using hsup

/-- C9 witness: a stored id survives a completion on the relational
backend and a listing on the in-memory backend. -/
theorem use_case_ops_never_delete_ids_witness :
    ("U1") ∈ (runUseCaseOp sqlRepo (UseCaseOp.complete ("U1"))
        [{ id := ("U1"), title := ("Buy milk"), completed := false }]).map TodoItemModel.id
  ∧ ("U1") ∈ (runUseCaseOp inMemoryRepo UseCaseOp.getAll
        (PyStore.pydict
          [(("U1"), { title := ("Buy milk"), completed := false, id := ("U1") })])).storedIds :=
  ⟨use_case_ops_never_delete_ids.1 (UseCaseOp.complete ("U1"))
      [{ id := ("U1"), title := ("Buy milk"), completed := false }] ("U1") (by decide),
   use_case_ops_never_delete_ids.2 UseCaseOp.getAll
      (PyStore.pydict
        [(("U1"), { title := ("Buy milk"), completed := false, id := ("U1") })])
      ("U1") (by decide)⟩
